import Mathlib

/-!
Verification development for the computherm_b real-time device-state
synchronization subsystem.  The definitions below are a shallow embedding of
src/custom_components/computherm_b/websocket.py and
src/custom_components/computherm_b/coordinator.py: JSON-ish wire values are an
inductive type, Python dicts with a fixed key set become structures whose
fields are wrapped in Option to record key presence, mutation becomes explicit
state passing, and exceptions caught by the source become Option results.
Source line numbers referenced in comments are those of the two files above.
-/

/-- Scalar JSON-ish value as found in device payload dictionaries.  Python
None is JVal.null.  Numbers are rationals; device payloads only carry
integers and decimal readings, which embed exactly. -/
inductive JVal where
  | null
  | bool (b : Bool)
  | num (q : Rat)
  | str (s : String)
deriving DecidableEq, Repr

/-- Full JSON value, used where the source manipulates arbitrary json.loads
output (message classification and the token payload). -/
inductive Json where
  | null
  | bool (b : Bool)
  | num (q : Rat)
  | str (s : String)
  | arr (xs : List Json)
  | obj (kvs : List (String × Json))

/-! String helpers.  These re-implement the Python string operations the
source uses (str.upper, str.lower, str.split, str(x)) over character lists so
that concrete evaluation reduces in the kernel.  ASCII case mapping matches
Python for the ASCII payloads this protocol carries. -/

def upperChar (c : Char) : Char :=
  if 'a' ≤ c ∧ c ≤ 'z' then Char.ofNat (c.toNat - 32) else c

def lowerChar (c : Char) : Char :=
  if 'A' ≤ c ∧ c ≤ 'Z' then Char.ofNat (c.toNat + 32) else c

def pyUpper (s : String) : String := ⟨s.data.map upperChar⟩

def pyLower (s : String) : String := ⟨s.data.map lowerChar⟩

/-- Python str.split(sep) for a single-character separator: an empty string
yields one empty field, and every separator starts a new field. -/
def splitOnChar (sep : Char) : List Char → List (List Char)
  | [] => [[]]
  | c :: t =>
    if c = sep then [] :: splitOnChar sep t
    else
      match splitOnChar sep t with
      | h :: r => (c :: h) :: r
      | [] => [[c]]

def pySplitDot (s : String) : List String :=
  (splitOnChar '.' s.data).map String.mk

/-- Boolean check that the second list starts with the first one. -/
def leadsWith : List Char → List Char → Bool
  | [], _ => true
  | _ :: _, [] => false
  | a :: as, b :: bs => a = b && leadsWith as bs

def natDigits : Nat → Nat → List Char
  | 0, _ => []
  | _ + 1, 0 => []
  | fuel + 1, n => natDigits fuel (n / 10) ++ [Char.ofNat (48 + n % 10)]

def natRepr (n : Nat) : String := if n = 0 then "0" else ⟨natDigits (n + 1) n⟩

def intRepr : Int → String
  | Int.ofNat n => natRepr n
  | Int.negSucc n => "-" ++ natRepr (n + 1)

/-- Python str(x) for the scalar values the source formats into sensor keys
and names.  Integral numbers render exactly as in Python; the textual form of
non-integral numbers is approximated (it is never used by the source for
anything the claims depend on). -/
def pyStr : JVal → String
  | JVal.null => "None"
  | JVal.bool true => "True"
  | JVal.bool false => "False"
  | JVal.str s => s
  | JVal.num q => if q.den = 1 then intRepr q.num else intRepr q.num ++ "/" ++ natRepr q.den

/-- Python truthiness for the scalar values tested by the source
(if not controlling_src, if not serial). -/
def pyFalsy : JVal → Bool
  | JVal.null => true
  | JVal.bool b => !b
  | JVal.num q => q == 0
  | JVal.str s => s == ""

/-! Association-list model of Python dict access: getKey? is d.get(k),
setKey is d[k] = v (update in place, append if new). -/

def getKey? {α : Type} (l : List (String × α)) (k : String) : Option α :=
  (l.find? (fun p => p.1 == k)).map (fun p => p.2)

def setKey {α : Type} (l : List (String × α)) (k : String) (v : α) : List (String × α) :=
  match l with
  | [] => [(k, v)]
  | (k', v') :: t => if k' == k then (k, v) :: t else (k', v') :: setKey t k v

/-- Dict get with a JVal default, as in d.get(k) / d.get(k, default). -/
def jvGetD (l : List (String × JVal)) (k : String) (d : JVal) : JVal :=
  match getKey? l k with
  | some v => v
  | none => d

/-! Data model.  A field of type Option JVal is a dict key that may be absent
(none) and whose value may itself be Python None (some JVal.null). -/

/-- One element of a readings array (websocket.py 104-163).  The src and type
values are typed as strings when present, matching the wire payloads: the
source calls .upper() on them, which would fail on non-strings.  For id, a
present-but-null value behaves exactly like an absent key in the source
(reading.get returns None for both), so both are modelled by comparing
against JVal.null. -/
structure Reading where
  reading : Option JVal := none
  src : Option String := none
  id : Option JVal := none
  type : Option String := none
  sensor : Option JVal := none
  name : Option JVal := none
  battery : Option JVal := none
  rssi : Option JVal := none
  rssiLevel : Option JVal := none
deriving DecidableEq, Repr

/-- One element of a relays array (websocket.py 212-259), also the values of
the relay registry built by process_base_info. -/
structure Relay where
  relay : Option JVal := none
  type : Option JVal := none
  relayState : Option JVal := none
  function : Option JVal := none
  mode : Option JVal := none
  scheduleSetPoint : Option JVal := none
  manualSetPoint : Option JVal := none
  controllingSrc : Option JVal := none
  controllingSensor : Option JVal := none
  controllingReading : Option JVal := none
deriving DecidableEq, Repr

/-- One entry of the sensor_readings map (websocket.py 124-151). -/
structure SensorEntry where
  src : Option JVal := none
  name : Option JVal := none
  type : Option JVal := none
  battery : Option JVal := none
  rssi : Option JVal := none
  rssiLevel : Option JVal := none
  reading : Option JVal := none
deriving DecidableEq, Repr

/-- One entry of the sensors registry built by process_base_info
(websocket.py 300-309). -/
structure SensorMeta where
  id : JVal
  src : JVal
  sensor : JVal
  type : JVal
  name : JVal
deriving DecidableEq, Repr

/-- Static device metadata as stored in coordinator.devices[serial]
(coordinator.py 166-177). -/
structure DeviceInfo where
  devId : JVal := JVal.null
  serialNumber : String
  brand : JVal := JVal.null
  devType : JVal := JVal.null
  userId : JVal := JVal.null
  fwVer : JVal := JVal.null
  deviceIp : JVal := JVal.null
  deviceType : JVal := JVal.str ""
  accessStatus : JVal := JVal.null
  accessRules : List (String × JVal) := []
deriving DecidableEq, Repr

/-- A device_update dictionary as built by the websocket message handler.
Every field is Option-wrapped: none means the dict key is absent, which is
what the coordinator's dict.update merge keys on. -/
structure DeviceUpdate where
  online : Option JVal := none
  src : Option JVal := none
  temperature : Option JVal := none
  humidity : Option JVal := none
  targetTemperature : Option JVal := none
  currentTemperature : Option JVal := none
  relayState : Option JVal := none
  isHeating : Option JVal := none
  function : Option JVal := none
  mode : Option JVal := none
  controllingSrc : Option JVal := none
  controllingSensor : Option JVal := none
  sensorReadings : Option (List (String × SensorEntry)) := none
  baseInfo : Option (List (String × JVal)) := none
  availableSensorIds : Option (List String) := none
  availableRelayIds : Option (List String) := none
  sensors : Option (List (String × SensorMeta)) := none
  relays : Option (List (String × Relay)) := none
  system : Option (List (String × JVal)) := none
  rssi : Option JVal := none
  rssiLevel : Option JVal := none
deriving DecidableEq, Repr

/-- The canonical per-device record coordinator.device_data[serial].  Fields
initialised by _initialize_device_data (coordinator.py 304-321) are plain
JVal (the key always exists, possibly with value None); keys that only appear
after some update (humidity, src, base-info registries, system data) are
Option-wrapped.  The defaults are exactly the _initialize_device_data
values. -/
structure DeviceRecord where
  info : DeviceInfo
  temperature : JVal := JVal.null
  targetTemperature : JVal := JVal.null
  currentTemperature : JVal := JVal.null
  function : JVal := JVal.null
  mode : JVal := JVal.null
  relayState : JVal := JVal.null
  online : JVal := JVal.bool false
  sensorReadings : List (String × SensorEntry) := []
  controllingSrc : JVal := JVal.null
  controllingSensor : JVal := JVal.null
  isHeating : JVal := JVal.bool false
  baseInfo : Option (List (String × JVal)) := none
  humidity : Option JVal := none
  src : Option JVal := none
  availableSensorIds : Option (List String) := none
  availableRelayIds : Option (List String) := none
  sensors : Option (List (String × SensorMeta)) := none
  relays : Option (List (String × Relay)) := none
  system : Option (List (String × JVal)) := none
  rssi : Option JVal := none
  rssiLevel : Option JVal := none
deriving DecidableEq, Repr

/-- coordinator._initialize_device_data (coordinator.py 304-321): spreads the
static metadata and sets every state key to its initial value, which are the
structure defaults. -/
def initializeDeviceData (info : DeviceInfo) : DeviceRecord := { info := info }

/-- An event_data payload of a devices event (the second element of a parsed
42/devices frame), as accessed by _handle_message and process_base_info. -/
structure EventData where
  baseInfo : Option (List (String × JVal)) := none
  serialNumber : Option JVal := none
  online : Option JVal := none
  readings : Option (List Reading) := none
  relays : Option (List Relay) := none
  system : Option (List (String × JVal)) := none
deriving DecidableEq, Repr

/-! WebSocketMessageHandler._process_readings (websocket.py 92-203). -/

/-- Sensor-key construction of _process_readings (websocket.py 108-122). -/
def readingSensorKey (r : Reading) : String :=
  let srcU := pyUpper (r.src.getD "")
  let typeU := pyUpper (r.type.getD "")
  if srcU = "ONBOARD" then srcU ++ "_" ++ typeU
  else if r.id.getD JVal.null ≠ JVal.null then srcU ++ "_" ++ pyStr (r.id.getD JVal.null)
  else srcU ++ "_" ++ pyStr (r.sensor.getD (JVal.num 1))

/-- Loop body of _process_readings (websocket.py 104-163) for one reading:
skip entries without a reading value, create-or-update the sensor entry with
metadata and diagnostic attributes, record the device-level src once, then
dispatch on the raw type string, normalising the sentinel "N/A" to None. -/
def processReadingStep (du : DeviceUpdate) (r : Reading) : DeviceUpdate :=
  match r.reading with
  | none => du
  | some rawVal =>
    let srcU := pyUpper (r.src.getD "")
    let key := readingSensorKey r
    let sr := du.sensorReadings.getD []
    let e0 := (getKey? sr key).getD {}
    let e1 := { e0 with
      src := some (JVal.str (pyLower srcU)),
      name := some (r.name.getD (JVal.str "")),
      type := some (r.type.elim JVal.null JVal.str) }
    let e2 := match r.battery with
      | some v => { e1 with battery := some v }
      | none => e1
    let e3 := match r.rssi with
      | some v => { e2 with rssi := some v }
      | none => e2
    let e4 := match r.rssiLevel with
      | some v => { e3 with rssiLevel := some (if v = JVal.null then JVal.null else JVal.str (pyLower (pyStr v))) }
      | none => e3
    let du1 := if r.src.isSome && du.src.isNone then { du with src := some (JVal.str (pyLower srcU)) } else du
    if r.type = some "TEMPERATURE" then
      let rv := if rawVal = JVal.str "N/A" then JVal.null else rawVal
      let du2 := { du1 with sensorReadings := some (setKey sr key { e4 with reading := some rv }) }
      { du2 with temperature := if du2.temperature.isNone then some rv else du2.temperature }
    else if r.type = some "HUMIDITY" then
      let rv := if rawVal = JVal.str "N/A" then JVal.null else rawVal
      { du1 with sensorReadings := some (setKey sr key e4), humidity := some rv }
    else if r.type = some "TARGET_TEMPERATURE" then
      let rv := if rawVal = JVal.str "N/A" then JVal.null else rawVal
      { du1 with sensorReadings := some (setKey sr key e4), targetTemperature := some rv }
    else { du1 with sensorReadings := some (setKey sr key e4) }

/-- Controlling-sensor key construction, shared verbatim by the tail blocks
of _process_readings (websocket.py 183-191) and _process_relays
(websocket.py 267-275). -/
def controllingKey (csrc csen : JVal) : String :=
  if csrc = JVal.str "ONBOARD" then "ONBOARD_TEMPERATURE"
  else if csen ≠ JVal.null then pyStr csrc ++ "_" ++ pyStr csen
  else pyStr csrc ++ "_1"

/-- Common tail of the two recompute blocks: look the controlling sensor up
in the update's own sensor_readings table and, when it has a reading key,
copy that reading into current_temperature. -/
def setCurrentFromControlling (du : DeviceUpdate) (csrc csen : JVal) : DeviceUpdate :=
  let key := controllingKey csrc csen
  match du.sensorReadings with
  | some sr =>
    match getKey? sr key with
    | some e =>
      match e.reading with
      | some rv => { du with currentTemperature := some rv }
      | none => du
    | none => du
  | none => du

/-- Initialisation of the sensor_readings key before the readings loop
(websocket.py 101-102). -/
def readingsInit (du : DeviceUpdate) : DeviceUpdate :=
  if du.sensorReadings.isNone then { du with sensorReadings := some [] } else du

/-- WebSocketMessageHandler._process_readings (websocket.py 92-203).  The
stored argument is coordinator.device_data.get(serial): the controlling
pointer falls back to it when the update itself carries none
(websocket.py 172-181). -/
def processReadings (rs : List Reading) (_serial : String) (du : DeviceUpdate)
    (stored : Option DeviceRecord) : DeviceUpdate :=
  let du0 := readingsInit du
  let du1 := rs.foldl processReadingStep du0
  let csrc0 := du1.controllingSrc.getD JVal.null
  let csen0 := du1.controllingSensor.getD JVal.null
  let p :=
    if pyFalsy csrc0 then
      match stored with
      | some rec => (rec.controllingSrc, rec.controllingSensor)
      | none => (csrc0, csen0)
    else (csrc0, csen0)
  if !pyFalsy p.1 && du1.sensorReadings.isSome then setCurrentFromControlling du1 p.1 p.2
  else du1

/-- Normalisation of a setpoint value: the sentinels "N/A" and "OFF" become
None (websocket.py 234, 238, 243). -/
def relaySetPointNorm (sp : JVal) : JVal :=
  if sp = JVal.str "N/A" ∨ sp = JVal.str "OFF" then JVal.null else sp

/-- The target_temperature write of one relay entry (websocket.py 229-245):
with a mode key present the setpoint source follows the raw mode string
(SCHEDULE or MANUAL); without one, manual_set_point is used only when the
update does not already carry a target_temperature key. -/
def relayTargetWrite (du : DeviceUpdate) (rl : Relay) : Option JVal :=
  match rl.mode with
  | some mv =>
    if mv = JVal.str "SCHEDULE" then
      match rl.scheduleSetPoint with
      | some sp => some (relaySetPointNorm sp)
      | none => du.targetTemperature
    else if mv = JVal.str "MANUAL" then
      match rl.manualSetPoint with
      | some sp => some (relaySetPointNorm sp)
      | none => du.targetTemperature
    else du.targetTemperature
  | none =>
    match rl.manualSetPoint with
    | some sp =>
      if du.targetTemperature.isNone then some (relaySetPointNorm sp) else du.targetTemperature
    | none => du.targetTemperature

/-- Loop body of _process_relays (websocket.py 212-259) for one relay entry,
written as the net dict-update effect of one loop iteration (the individual
key writes of the source are independent of each other): relay_state is the
comparison against "ON" mirrored into relay_state and is_heating
(websocket.py 213-217), function and mode are lower-cased with None passed
through (websocket.py 219-227), the setpoint choice is relayTargetWrite,
controlling_src is upper-cased, controlling_sensor stored raw
(websocket.py 248-252), and the older controlling_reading format writes
current_temperature with "N/A" normalised to None (websocket.py 254-259). -/
def processRelayStep (du : DeviceUpdate) (rl : Relay) : DeviceUpdate :=
  { du with
    relayState := match rl.relayState with
      | some v => some (JVal.bool (v == JVal.str "ON"))
      | none => du.relayState,
    isHeating := match rl.relayState with
      | some v => some (JVal.bool (v == JVal.str "ON"))
      | none => du.isHeating,
    function := match rl.function with
      | some v => some (if v = JVal.null then JVal.null else JVal.str (pyLower (pyStr v)))
      | none => du.function,
    mode := match rl.mode with
      | some v => some (if v = JVal.null then JVal.null else JVal.str (pyLower (pyStr v)))
      | none => du.mode,
    targetTemperature := relayTargetWrite du rl,
    controllingSrc := match rl.controllingSrc with
      | some v => some (JVal.str (pyUpper (pyStr v)))
      | none => du.controllingSrc,
    controllingSensor := match rl.controllingSensor with
      | some v => some v
      | none => du.controllingSensor,
    currentTemperature := match rl.controllingReading with
      | some v => some (if v = JVal.str "N/A" then JVal.null else v)
      | none => du.currentTemperature }

/-- WebSocketMessageHandler._process_relays (websocket.py 205-287).  The
final recompute runs only when the update itself carries both the
controlling_src key and a sensor_readings table (websocket.py 263). -/
def processRelays (rls : List Relay) (_serial : String) (du : DeviceUpdate) : DeviceUpdate :=
  let du1 := rls.foldl processRelayStep du
  match du1.controllingSrc, du1.sensorReadings with
  | some csrc, some _ => setCurrentFromControlling du1 csrc (du1.controllingSensor.getD JVal.null)
  | _, _ => du1

/-- WebSocketMessageHandler.process_base_info (websocket.py 289-397).  The
boot-timestamp computation (websocket.py 339-386) reads the wall clock and is
modelled only for events whose system object has no uptime key, which is the
case for every payload the claims quantify over; the rssi mirroring of the
system branch (websocket.py 388-392) is embedded. -/
def processBaseInfo (ev : EventData) (serial : String) (stored : Option DeviceRecord) : DeviceUpdate :=
  let relayArray := ev.relays.getD []
  let readingArray := ev.readings.getD []
  let systemData := ev.system.getD []
  let sensors : List (String × SensorMeta) := readingArray.map (fun r =>
    (pyStr (r.sensor.getD JVal.null),
     { id := r.id.getD JVal.null,
       src := match r.src with
              | some s => JVal.str (pyLower s)
              | none => JVal.null,
       sensor := r.sensor.getD JVal.null,
       type := r.type.elim JVal.null JVal.str,
       name := r.name.getD JVal.null }))
  let relays : List (String × Relay) := relayArray.map (fun rl => (pyStr (rl.relay.getD JVal.null), rl))
  let sensorIds := readingArray.map (fun r => pyStr (r.sensor.getD JVal.null))
  let relayIds := relayArray.map (fun rl => pyStr (rl.relay.getD JVal.null))
  let du : DeviceUpdate := {
    online := some (ev.online.getD (JVal.bool false)),
    baseInfo := some (ev.baseInfo.getD []),
    availableSensorIds := some sensorIds,
    availableRelayIds := some relayIds,
    sensors := some sensors,
    relays := some relays }
  let du := if readingArray.isEmpty then du else processReadings readingArray serial du stored
  let du :=
    if systemData.isEmpty then du
    else
      let du := { du with system := some systemData }
      let du := match getKey? systemData "rssi" with
        | some v => { du with rssi := some v }
        | none => du
      match getKey? systemData "rssi_level" with
      | some v => { du with rssiLevel := some (if v = JVal.null then JVal.null else JVal.str (pyLower (pyStr v))) }
      | none => du
  if relayArray.isEmpty then du else processRelays relayArray serial du

/-- Serial gate of _handle_message: drop events whose extracted serial is
falsy (websocket.py 977-980 and 995-998) or not among the configured device
serials (websocket.py 981-984 and 995-998).  A non-string serial can never
equal a configured string serial, so the membership test drops it exactly as
in the source. -/
def serialGate (deviceSerials : List String) (serial : JVal) : Option String :=
  match serial with
  | JVal.str s =>
    if s = "" then none
    else if ¬ deviceSerials.contains s then none
    else some s
  | _ => none

/-- Steady-state branch of _handle_message (websocket.py 992-1013): the
update starts from the online value with default False, then the readings
and relays processors run over it, and the serial/update pair is handed to
the data callback. -/
def steadyEventUpdate (deviceSerials : List String) (stored : String → Option DeviceRecord)
    (ev : EventData) : Option (String × DeviceUpdate) :=
  match serialGate deviceSerials (ev.serialNumber.getD JVal.null) with
  | none => none
  | some s =>
    let du : DeviceUpdate := { online := some (ev.online.getD (JVal.bool false)) }
    let du := match ev.readings with
      | some rs => processReadings rs s du (stored s)
      | none => du
    let du := match ev.relays with
      | some rls => processRelays rls s du
      | none => du
    some (s, du)

/-- base_info branch of _handle_message (websocket.py 974-1013): the serial
is looked up inside the base_info object, process_base_info builds the
update, and then the source runs _process_readings and _process_relays a
second time over it (websocket.py 1004-1010). -/
def baseInfoEventUpdate (deviceSerials : List String) (stored : String → Option DeviceRecord)
    (ev : EventData) (bi : List (String × JVal)) : Option (String × DeviceUpdate) :=
  match serialGate deviceSerials (jvGetD bi "serial_number" JVal.null) with
  | none => none
  | some s =>
    let du := processBaseInfo ev s (stored s)
    let du := match ev.readings with
      | some rs => processReadings rs s du (stored s)
      | none => du
    let du := match ev.relays with
      | some rls => processRelays rls s du
      | none => du
    some (s, du)

/-- Event-processing part of WebSocketClient._handle_message
(websocket.py 964-1013): non-event frames are ignored, base_info events and
steady-state events are routed on the presence of the base_info key.
Returning none models the early returns on which no update is produced and
no callback fires. -/
def processEventData (deviceSerials : List String) (stored : String → Option DeviceRecord)
    (tag : JVal) (ev : EventData) : Option (String × DeviceUpdate) :=
  if tag ≠ JVal.str "event" then none
  else
    match ev.baseInfo with
    | some bi => baseInfoEventUpdate deviceSerials stored ev bi
    | none => steadyEventUpdate deviceSerials stored ev

/-- Serial extraction used by the two routing branches of _handle_message
(websocket.py 976 and 994): base_info events look the serial up inside the
base_info object, steady-state events read the top-level serial_number
key. -/
def eventSerial (ev : EventData) : JVal :=
  match ev.baseInfo with
  | some bi => jvGetD bi "serial_number" JVal.null
  | none => ev.serialNumber.getD JVal.null

/-! WebSocketMessageHandler.handle_websocket_message (websocket.py 30-90). -/

def jGetD (kvs : List (String × Json)) (k : String) (d : Json) : Json :=
  match (kvs.find? (fun p => p.1 == k)).map (fun p => p.2) with
  | some v => v
  | none => d

def jsonIsStr (v : Json) (s : String) : Bool :=
  match v with
  | Json.str t => t == s
  | _ => false

/-- Python hasattr(x, "rcvd") for a json.loads result: json decoding only
produces dict, list, str, numbers, bool and None, none of which carries an
rcvd attribute, so this is constantly false.  It is kept as a definition so
the branch structure of the source (websocket.py 68-84) stays visible. -/
def jsonHasAttrRcvd (_ : Json) : Bool := false

/-- Classification of a parsed 42/devices payload, websocket.py 50-86.  The
input is the json.loads result of the frame body.  Returns none where the
source returns None (bad structure, or an attribute error caught by the
blanket except when the exception payload is not a dict); otherwise the pair
(should_close, data).  Note that both arms of the close-code test
(websocket.py 69-84) return (True, error_data): the (1000, 1005) comparison
only selects the log level, and jsonHasAttrRcvd shows it cannot even be
reached with json-decoded data. -/
def handleDevicesEventData (data : Json) : Option (Bool × Json) :=
  match data with
  | Json.arr [first, second] =>
    if jsonIsStr first "exception" then
      match second with
      | Json.obj kvs =>
        let errorMsg := jGetD kvs "message" (Json.str "Unknown error")
        let errorStatus := jGetD kvs "status" Json.null
        if jsonIsStr errorStatus "error" && jsonIsStr errorMsg "Forbidden resource" then
          some (true, Json.obj kvs)
        else
          let errorCode := jGetD kvs "code" Json.null
          if jsonHasAttrRcvd errorCode then some (true, Json.obj kvs)
          else some (true, Json.obj kvs)
      | _ => none
    else some (false, data)
  | _ => none

/-! Token lifecycle (websocket.py 602-634).  _get_token_expiry pads the
middle token segment and decodes it with standard base64.b64decode in its
default lenient mode, then json-parses the bytes and reads the exp claim;
every exception on the way yields None.  The lenient binascii.a2b_base64
semantics (CPython 3.11, strict_mode False) are: characters outside the
standard alphabet are silently discarded; a pad character is ignored unless
the current quad already holds at least two data characters and enough pads
have accumulated to complete it, in which case decoding stops; the pad
counter resets on every data character; leftover data characters at end of
input are an error. -/

def b64CharVal (c : Char) : Option Nat :=
  if 'A' ≤ c ∧ c ≤ 'Z' then some (c.toNat - 65)
  else if 'a' ≤ c ∧ c ≤ 'z' then some (c.toNat - 71)
  else if '0' ≤ c ∧ c ≤ '9' then some (c.toNat + 4)
  else if c = '+' then some 62
  else if c = '/' then some 63
  else none

def a2bLoop : List Char → Nat → Nat → Nat → List Nat → Option (List Nat)
  | [], 0, _, _, acc => some acc.reverse
  | [], _ + 1, _, _, _ => none
  | c :: rest, quadPos, leftchar, pads, acc =>
    if c = '=' then
      if 2 ≤ quadPos then
        if 4 ≤ quadPos + (pads + 1) then some acc.reverse
        else a2bLoop rest quadPos leftchar (pads + 1) acc
      else a2bLoop rest quadPos leftchar pads acc
    else
      match b64CharVal c with
      | none => a2bLoop rest quadPos leftchar pads acc
      | some v =>
        match quadPos with
        | 0 => a2bLoop rest 1 v 0 acc
        | 1 => a2bLoop rest 2 (v % 16) 0 ((leftchar * 4 + v / 16) :: acc)
        | 2 => a2bLoop rest 3 (v % 4) 0 ((leftchar * 16 + v / 4) :: acc)
        | _ => a2bLoop rest 0 0 0 ((leftchar * 64 + v) :: acc)

/-- base64.b64decode on a str argument: the implicit ascii encoding raises on
non-ascii input, then the lenient a2b decode runs. -/
def pyB64Decode (s : String) : Option (List Nat) :=
  if s.data.any (fun c => 128 ≤ c.toNat) then none
  else a2bLoop s.data 0 0 0 []

/-- json.loads decodes its bytes argument as UTF-8; the model covers the
ascii range, which is all the token payloads of the claims use, and treats
other bytes as a decode failure. -/
def bytesToAscii (bs : List Nat) : Option String :=
  if bs.any (fun b => 128 ≤ b) then none
  else some ⟨bs.map Char.ofNat⟩

/-! A fuel-indexed parser for the json.loads fragment the source feeds it:
objects, arrays, double-quoted strings without escapes, integers, and the
three literals.  Anything else (escapes, floats, trailing garbage) fails,
modelling the ValueError path. -/

def skipWs : List Char → List Char
  | c :: t => if c = ' ' ∨ c = '\t' ∨ c = '\n' ∨ c = '\r' then skipWs t else c :: t
  | [] => []

def parseStringBody : List Char → Option (String × List Char)
  | [] => none
  | c :: t =>
    if c = Char.ofNat 34 then some ("", t)
    else if c = Char.ofNat 92 then none
    else
      match parseStringBody t with
      | some (s, rest) => some (⟨c :: s.data⟩, rest)
      | none => none

def parseDigits : List Char → Option (Nat × List Char)
  | [] => none
  | c :: t =>
    if '0' ≤ c ∧ c ≤ '9' then
      match parseDigits t with
      | some (n, rest) => some ((c.toNat - 48) * 10 ^ (t.length - rest.length) + n, rest)
      | none => some (c.toNat - 48, t)
    else none

mutual

def parseJson : Nat → List Char → Option (Json × List Char)
  | 0, _ => none
  | fuel + 1, cs =>
    match skipWs cs with
    | [] => none
    | c :: t =>
      if c = Char.ofNat 123 then parseObjBody fuel (skipWs t) true
      else if c = Char.ofNat 91 then parseArrBody fuel (skipWs t) true
      else if c = Char.ofNat 34 then
        match parseStringBody t with
        | some (s, rest) => some (Json.str s, rest)
        | none => none
      else if c = '-' then
        match parseDigits t with
        | some (n, rest) =>
          if decide (rest.head? = some '.') ∨ decide (rest.head? = some 'e') ∨ decide (rest.head? = some 'E') then none
          else some (Json.num (-(n : Rat)), rest)
        | none => none
      else if '0' ≤ c ∧ c ≤ '9' then
        match parseDigits (c :: t) with
        | some (n, rest) =>
          if decide (rest.head? = some '.') ∨ decide (rest.head? = some 'e') ∨ decide (rest.head? = some 'E') then none
          else some (Json.num (n : Rat), rest)
        | none => none
      else if leadsWith "null".data (c :: t) then some (Json.null, (c :: t).drop 4)
      else if leadsWith "true".data (c :: t) then some (Json.bool true, (c :: t).drop 4)
      else if leadsWith "false".data (c :: t) then some (Json.bool false, (c :: t).drop 5)
      else none

def parseArrBody : Nat → List Char → Bool → Option (Json × List Char)
  | 0, _, _ => none
  | fuel + 1, cs, isFirst =>
    match cs with
    | c :: t =>
      if c = Char.ofNat 93 ∧ isFirst then some (Json.arr [], t)
      else
        match parseJson fuel cs with
        | some (v, rest) =>
          match skipWs rest with
          | d :: u =>
            if d = ',' then
              match parseArrBody fuel (skipWs u) false with
              | some (Json.arr xs, rest2) => some (Json.arr (v :: xs), rest2)
              | _ => none
            else if d = Char.ofNat 93 then some (Json.arr [v], u)
            else none
          | [] => none
        | none => none
    | [] => none

def parseObjBody : Nat → List Char → Bool → Option (Json × List Char)
  | 0, _, _ => none
  | fuel + 1, cs, isFirst =>
    match cs with
    | c :: t =>
      if c = Char.ofNat 125 ∧ isFirst then some (Json.obj [], t)
      else if c = Char.ofNat 34 then
        match parseStringBody t with
        | some (k, rest) =>
          match skipWs rest with
          | d :: u =>
            if d = ':' then
              match parseJson fuel (skipWs u) with
              | some (v, rest2) =>
                match skipWs rest2 with
                | e :: w =>
                  if e = ',' then
                    match parseObjBody fuel (skipWs w) false with
                    | some (Json.obj kvs, rest3) => some (Json.obj ((k, v) :: kvs), rest3)
                    | _ => none
                  else if e = Char.ofNat 125 then some (Json.obj [(k, v)], w)
                  else none
                | [] => none
              | none => none
            else none
          | [] => none
        | none => none
      else none
    | [] => none

end

def jsonParse (s : String) : Option Json :=
  match parseJson (s.length + 1) s.data with
  | some (v, rest) => if (skipWs rest).isEmpty then some v else none
  | none => none

/-- WebSocketClient._get_token_expiry (websocket.py 602-628): split on dots,
take the payload segment, pad to a multiple of four, base64-decode, json
parse, and read the exp claim; any failure yields None.  The expiry instant
is the exp value in epoch seconds (datetime.fromtimestamp). -/
def getTokenExpiry (token : String) : Option Rat :=
  match (pySplitDot token).get? 1 with
  | none => none
  | some payload =>
    let padded :=
      if payload.length % 4 = 0 then payload
      else payload ++ String.mk (List.replicate (4 - payload.length % 4) '=')
    match pyB64Decode padded with
    | none => none
    | some bytes =>
      match bytesToAscii bytes with
      | none => none
      | some txt =>
        match jsonParse txt with
        | some (Json.obj kvs) =>
          match (kvs.find? (fun p => p.1 == "exp")).map (fun p => p.2) with
          | some (Json.num q) => some q
          | some (Json.bool b) => some (if b then 1 else 0)
          | some _ => none
          | none => none
        | _ => none

/-- WebSocketClient._token_needs_refresh (websocket.py 630-634): false when
the expiry is unknown, otherwise true iff now plus the one-hour lead window
(3600 seconds) has reached the expiry.  Instants are epoch seconds. -/
def tokenNeedsRefresh (tokenExpiry : Option Rat) (now : Rat) : Bool :=
  match tokenExpiry with
  | none => false
  | some expiry => if expiry ≤ now + 3600 then true else false

/-! coordinator merge (coordinator.py 280-345). -/

/-- Python dict.update of a device record with a device_update: every key
present in the update overwrites the record's value; absent keys leave the
record untouched (coordinator.py 331/335/338/345). -/
def applyUpdate (rec : DeviceRecord) (du : DeviceUpdate) : DeviceRecord :=
  { rec with
    online := du.online.getD rec.online,
    src := if du.src.isSome then du.src else rec.src,
    temperature := du.temperature.getD rec.temperature,
    humidity := if du.humidity.isSome then du.humidity else rec.humidity,
    targetTemperature := du.targetTemperature.getD rec.targetTemperature,
    currentTemperature := du.currentTemperature.getD rec.currentTemperature,
    relayState := du.relayState.getD rec.relayState,
    isHeating := du.isHeating.getD rec.isHeating,
    function := du.function.getD rec.function,
    mode := du.mode.getD rec.mode,
    controllingSrc := du.controllingSrc.getD rec.controllingSrc,
    controllingSensor := du.controllingSensor.getD rec.controllingSensor,
    sensorReadings := du.sensorReadings.getD rec.sensorReadings,
    baseInfo := if du.baseInfo.isSome then du.baseInfo else rec.baseInfo,
    availableSensorIds := if du.availableSensorIds.isSome then du.availableSensorIds else rec.availableSensorIds,
    availableRelayIds := if du.availableRelayIds.isSome then du.availableRelayIds else rec.availableRelayIds,
    sensors := if du.sensors.isSome then du.sensors else rec.sensors,
    relays := if du.relays.isSome then du.relays else rec.relays,
    system := if du.system.isSome then du.system else rec.system,
    rssi := if du.rssi.isSome then du.rssi else rec.rssi,
    rssiLevel := if du.rssiLevel.isSome then du.rssiLevel else rec.rssiLevel }

/-- coordinator._process_state_update (coordinator.py 323-338).  The guards
use dict.get, which returns None both for an absent key and for a
present-but-null value, hence the getD JVal.null comparisons.  Note the
source's if/elif chain: when the first branch fires, only function is
restored. -/
def processStateUpdate (rec : DeviceRecord) (du : DeviceUpdate) : DeviceRecord :=
  if du.function.getD JVal.null = JVal.null ∧ rec.function ≠ JVal.null then
    { applyUpdate rec du with function := rec.function }
  else if du.mode.getD JVal.null = JVal.null ∧ rec.mode ≠ JVal.null then
    { applyUpdate rec du with mode := rec.mode }
  else applyUpdate rec du

/-- coordinator._process_device_update (coordinator.py 280-302) on an
already-initialised record: a base_info update is first merged wholesale by
_process_base_info_update (coordinator.py 340-345), then _process_state_update
runs on every update.  The sensor-metadata and wifi fetches spawned by the
base_info path are external REST calls outside this subsystem. -/
def processDeviceUpdate (rec : DeviceRecord) (du : DeviceUpdate) : DeviceRecord :=
  let rec1 := if du.baseInfo.isSome then applyUpdate rec du else rec
  processStateUpdate rec1 du

/-- coordinator._synthesize_base_info (coordinator.py 489-557): build the
synthetic base_info object from the static metadata, assume one thermostat
relay whose mode/function/relay_state come from the current record (the dict
defaults of coordinator.py 530-532 are dead because _initialize_device_data
always creates those keys), and copy over the already-observed readings and
temperature values (the presence checks of coordinator.py 538-547 always hold
for an initialised record). -/
def synthesizeBaseInfo (info : DeviceInfo) (current : DeviceRecord) : DeviceUpdate :=
  let syntheticBaseInfo : List (String × JVal) := [
    ("id", info.devId),
    ("serial_number", JVal.str info.serialNumber),
    ("brand", info.brand),
    ("type", info.devType),
    ("user_id", info.userId),
    ("fw_ver", info.fwVer),
    ("device_type", info.deviceType),
    ("name", JVal.str (pyStr info.deviceType ++ " " ++ info.serialNumber)),
    ("timezone", JVal.str "Europe/Budapest"),
    ("group_color", JVal.null),
    ("assigned_partner", JVal.null)]
  { baseInfo := some syntheticBaseInfo,
    online := some current.online,
    availableSensorIds := some [],
    availableRelayIds := some ["1"],
    sensors := some [],
    relays := some [("1",
      { relay := some (JVal.num 1),
        type := some (JVal.str "THERMOSTAT"),
        mode := some current.mode,
        function := some current.function,
        relayState := some current.relayState })],
    sensorReadings := some current.sensorReadings,
    temperature := some current.temperature,
    currentTemperature := some current.currentTemperature,
    targetTemperature := some current.targetTemperature }

/-- Merging a synthetic base_info: _synthesize_base_info hands the update to
_process_base_info_update only (coordinator.py 554), which is a plain dict
update of the record. -/
def synthesizeMerge (info : DeviceInfo) (current : DeviceRecord) : DeviceRecord :=
  applyUpdate current (synthesizeBaseInfo info current)

/-- Outcome of one pass of _monitor_base_info_timeout for one undiscovered
device (websocket.py 708-747). -/
inductive MonitorOutcome where
  | retryScan
  | synthesizeRequest
deriving DecidableEq, Repr

/-- websocket.py 709-747: devices still missing base_info are rescanned while
the retry count is below _max_scan_retries = 3; on exhaustion the coordinator
is asked to synthesize the record. -/
def monitorBaseInfoOutcome (retryCount : Nat) : MonitorOutcome :=
  if retryCount < 3 then MonitorOutcome.retryScan else MonitorOutcome.synthesizeRequest

/-! Reconnect backoff (websocket.py 544-600 and 660-664). -/

structure BackoffState where
  reconnectAttempts : Nat
  reconnectInterval : Rat
deriving DecidableEq, Repr

/-- Constructor state of WebSocketClient (websocket.py 423-425): the interval
starts at 10 seconds with zero attempts. -/
def initialBackoff : BackoffState := { reconnectAttempts := 0, reconnectInterval := 10 }

/-- One iteration of the _websocket_handler retry loop that ends in a failure
and reaches the backoff computation (websocket.py 584-600).  If the
websockets.connect call of this iteration succeeded, _handle_connection has
already reset the counters to 0 attempts and a 5-second interval before any
handshake traffic (websocket.py 662-664).  The jitter argument is the
random.uniform(0.8, 1.2) draw.  Returns the state after the attempt counter
increment together with the computed backoff delay in seconds. -/
def handlerIteration (st : BackoffState) (connectSucceeded : Bool) (jitter : Rat) :
    BackoffState × Rat :=
  let st1 := if connectSucceeded then { reconnectAttempts := 0, reconnectInterval := 5 } else st
  let attempts := st1.reconnectAttempts + 1
  let backoffTime := min (st1.reconnectInterval * 2 ^ (attempts - 1) * jitter) 600
  ({ st1 with reconnectAttempts := attempts }, backoffTime)

/-- Delays produced by consecutive retry-loop iterations; each pair gives
whether that iteration's connect succeeded and its jitter draw. -/
def backoffRun (st : BackoffState) : List (Bool × Rat) → List Rat
  | [] => []
  | (c, j) :: rest =>
    let p := handlerIteration st c j
    p.2 :: backoffRun p.1 rest

/-! Shared lemmas about the embedded operations. -/
/-! Helper lemmas shared by the claim theorems. -/

theorem getKey?_setKey_self {α : Type} (l : List (String × α)) (k : String) (v : α) :
    getKey? (setKey l k v) k = some v := by
  induction l with
  | nil => simp [getKey?, setKey]
  | cons p t ih =>
    obtain ⟨k', v'⟩ := p
    by_cases h : k' == k
    · simp [getKey?, setKey, h]
    · simp only [setKey, h, if_neg]
      simp only [getKey?, List.find?] at ih ⊢
      simp [h, ih]

theorem setCurrentFromControlling_proj (du : DeviceUpdate) (csrc csen : JVal) :
    (setCurrentFromControlling du csrc csen).online = du.online
    ∧ (setCurrentFromControlling du csrc csen).sensorReadings = du.sensorReadings
    ∧ (setCurrentFromControlling du csrc csen).humidity = du.humidity
    ∧ (setCurrentFromControlling du csrc csen).targetTemperature = du.targetTemperature := by
  unfold setCurrentFromControlling
  dsimp only
  (repeat' split) <;> exact ⟨rfl, rfl, rfl, rfl⟩

theorem applyUpdate_online (rec : DeviceRecord) (du : DeviceUpdate) :
    (applyUpdate rec du).online = du.online.getD rec.online := rfl

theorem processStateUpdate_online (rec : DeviceRecord) (du : DeviceUpdate) :
    (processStateUpdate rec du).online = du.online.getD rec.online := by
  unfold processStateUpdate
  (repeat' split) <;> rfl

theorem processDeviceUpdate_online (rec : DeviceRecord) (du : DeviceUpdate) :
    (processDeviceUpdate rec du).online = du.online.getD rec.online := by
  unfold processDeviceUpdate
  dsimp only
  split
  · rw [processStateUpdate_online, applyUpdate_online]
    cases h : du.online <;> simp [h]
  · rw [processStateUpdate_online]

theorem processStateUpdate_currentTemperature (rec : DeviceRecord) (du : DeviceUpdate) :
    (processStateUpdate rec du).currentTemperature = (applyUpdate rec du).currentTemperature := by
  unfold processStateUpdate
  (repeat' split) <;> rfl

theorem processStateUpdate_sensorReadings (rec : DeviceRecord) (du : DeviceUpdate) :
    (processStateUpdate rec du).sensorReadings = (applyUpdate rec du).sensorReadings := by
  unfold processStateUpdate
  (repeat' split) <;> rfl

theorem processReadingStep_online (du : DeviceUpdate) (r : Reading) :
    (processReadingStep du r).online = du.online := by
  unfold processReadingStep
  dsimp only
  (repeat' split) <;> rfl

theorem processRelayStep_online (du : DeviceUpdate) (rl : Relay) :
    (processRelayStep du rl).online = du.online := rfl

theorem foldlReadings_online (rs : List Reading) (du : DeviceUpdate) :
    (rs.foldl processReadingStep du).online = du.online := by
  induction rs generalizing du with
  | nil => rfl
  | cons r t ih => rw [List.foldl_cons, ih, processReadingStep_online]

theorem foldlRelays_online (rls : List Relay) (du : DeviceUpdate) :
    (rls.foldl processRelayStep du).online = du.online := by
  induction rls generalizing du with
  | nil => rfl
  | cons rl t ih => rw [List.foldl_cons, ih, processRelayStep_online]

theorem readingsInit_spec (du : DeviceUpdate) :
    (readingsInit du).online = du.online ∧ (readingsInit du).humidity = du.humidity ∧
    (readingsInit du).targetTemperature = du.targetTemperature := by
  unfold readingsInit
  split <;> exact ⟨rfl, rfl, rfl⟩

theorem processReadings_proj (rs : List Reading) (s : String) (du : DeviceUpdate)
    (st : Option DeviceRecord) :
    (processReadings rs s du st).sensorReadings = (rs.foldl processReadingStep (readingsInit du)).sensorReadings
    ∧ (processReadings rs s du st).humidity = (rs.foldl processReadingStep (readingsInit du)).humidity
    ∧ (processReadings rs s du st).targetTemperature = (rs.foldl processReadingStep (readingsInit du)).targetTemperature
    ∧ (processReadings rs s du st).online = (rs.foldl processReadingStep (readingsInit du)).online := by
  unfold processReadings
  dsimp only
  (repeat' split) <;>
    first
      | exact ⟨(setCurrentFromControlling_proj _ _ _).2.1,
          (setCurrentFromControlling_proj _ _ _).2.2.1,
          (setCurrentFromControlling_proj _ _ _).2.2.2,
          (setCurrentFromControlling_proj _ _ _).1⟩
      | exact ⟨rfl, rfl, rfl, rfl⟩

theorem processRelays_proj (rls : List Relay) (s : String) (du : DeviceUpdate) :
    (processRelays rls s du).targetTemperature = (rls.foldl processRelayStep du).targetTemperature
    ∧ (processRelays rls s du).online = (rls.foldl processRelayStep du).online := by
  unfold processRelays
  dsimp only
  (repeat' split) <;>
    first
      | exact ⟨(setCurrentFromControlling_proj _ _ _).2.2.2, (setCurrentFromControlling_proj _ _ _).1⟩
      | exact ⟨rfl, rfl⟩

theorem processReadings_online (rs : List Reading) (s : String) (du : DeviceUpdate)
    (st : Option DeviceRecord) : (processReadings rs s du st).online = du.online := by
  rw [(processReadings_proj rs s du st).2.2.2, foldlReadings_online, (readingsInit_spec du).1]

theorem processRelays_online (rls : List Relay) (s : String) (du : DeviceUpdate) :
    (processRelays rls s du).online = du.online := by
  rw [(processRelays_proj rls s du).2, foldlRelays_online]

theorem processReadingStep_temp_na (du : DeviceUpdate) (r0 : Reading) :
    ∃ e : SensorEntry,
      (processReadingStep du { r0 with reading := some (JVal.str "N/A"), type := some "TEMPERATURE" }).sensorReadings
        = some (setKey (du.sensorReadings.getD [])
            (readingSensorKey { r0 with reading := some (JVal.str "N/A"), type := some "TEMPERATURE" }) e)
      ∧ e.reading = some JVal.null := by
  unfold processReadingStep
  dsimp only
  exact ⟨_, rfl, rfl⟩

theorem processReadingStep_humidity_na (du : DeviceUpdate) (r0 : Reading) :
    (processReadingStep du { r0 with reading := some (JVal.str "N/A"), type := some "HUMIDITY" }).humidity
      = some JVal.null := by
  unfold processReadingStep
  dsimp only
  rfl

theorem processReadingStep_target_na (du : DeviceUpdate) (r0 : Reading) :
    (processReadingStep du { r0 with reading := some (JVal.str "N/A"), type := some "TARGET_TEMPERATURE" }).targetTemperature
      = some JVal.null := by
  unfold processReadingStep
  dsimp only
  rfl

theorem processRelayStep_sched_na (du : DeviceUpdate) (rl0 : Relay) :
    (processRelayStep du { rl0 with mode := some (JVal.str "SCHEDULE"), scheduleSetPoint := some (JVal.str "N/A") }).targetTemperature
      = some JVal.null := rfl

theorem processRelayStep_manual_na (du : DeviceUpdate) (rl0 : Relay) :
    (processRelayStep du { rl0 with mode := some (JVal.str "MANUAL"), manualSetPoint := some (JVal.str "N/A") }).targetTemperature
      = some JVal.null := rfl

/-! Concrete sample data used by the closed evaluation theorems. -/

/-- Static metadata of the worked concrete device. -/
def sampleInfo : DeviceInfo :=
  { devId := JVal.num 7, serialNumber := "A", brand := JVal.null,
    devType := JVal.str "BSERIES", userId := JVal.null, fwVer := JVal.str "1.0",
    deviceIp := JVal.null, deviceType := JVal.str "b-series", accessStatus := JVal.null }

/-- Steady-state event whose single relay entry carries explicit nulls for
both function and mode. -/
def evC1 : EventData :=
  { serialNumber := some (JVal.str "A"),
    relays := some [{ function := some JVal.null, mode := some JVal.null }] }

/-- The device_update the websocket layer produces for evC1. -/
def duC1 : DeviceUpdate :=
  { online := some (JVal.bool false), function := some JVal.null, mode := some JVal.null }

/-- A record that already holds non-null function and mode. -/
def recC1 : DeviceRecord :=
  { info := sampleInfo, function := JVal.str "heating", mode := JVal.str "manual" }

/-- C1: merging a steady-state relays payload that carries null for both
function and mode into a record holding non-null values for both preserves
function but nulls out mode: the elif of _process_state_update
(coordinator.py 323-338) restores only function. -/
theorem c1_null_function_mode_merge :
    processEventData ["A"] (fun _ => none) (JVal.str "event") evC1 = some ("A", duC1)
    ∧ (processDeviceUpdate recC1 duC1).function = JVal.str "heating"
    ∧ (processDeviceUpdate recC1 duC1).mode = JVal.null
    ∧ recC1.function = JVal.str "heating" ∧ recC1.mode = JVal.str "manual" := by
  refine ⟨by decide, by decide, by decide, rfl, rfl⟩

/-- C2 counterexample: an exception frame whose embedded close code is 1000
is still classified as requiring closure (first component true), contrary to
the claim that it is benign. -/
theorem c2_counterexample :
    handleDevicesEventData (Json.arr [Json.str "exception",
      Json.obj [("message", Json.str "closed"), ("code", Json.num 1000)]]) =
      some (true, Json.obj [("message", Json.str "closed"), ("code", Json.num 1000)]) := by
  rfl

/-- C2 (amended): every exception frame whose payload parses as an object is
classified as requiring connection closure, Forbidden resource or not; the
1000/1005 close-code test only selects the log level. -/
theorem c2_exception_always_fatal (kvs : List (String × Json)) :
    handleDevicesEventData (Json.arr [Json.str "exception", Json.obj kvs]) =
      some (true, Json.obj kvs) := by
  unfold handleDevicesEventData
  simp [jsonIsStr, jsonHasAttrRcvd]

/-- C3 counterexample: a steady-state update that moves the controlling
pointer from RELAY sensor 1 to RELAY sensor 2 without carrying readings
leaves current_temperature at the old sensor's value 21 even though the
newly designated sensor's stored reading is 23. -/
def recC3 : DeviceRecord :=
  { info := sampleInfo,
    sensorReadings := [
      ("RELAY_1", { src := some (JVal.str "relay"), reading := some (JVal.num 21) }),
      ("RELAY_2", { src := some (JVal.str "relay"), reading := some (JVal.num 23) })],
    controllingSrc := JVal.str "RELAY",
    controllingSensor := JVal.num 1,
    currentTemperature := JVal.num 21 }

def evC3 : EventData :=
  { serialNumber := some (JVal.str "A"),
    relays := some [{ controllingSrc := some (JVal.str "RELAY"),
                      controllingSensor := some (JVal.num 2) }] }

def duC3 : DeviceUpdate :=
  { online := some (JVal.bool false), controllingSrc := some (JVal.str "RELAY"),
    controllingSensor := some (JVal.num 2) }

theorem c3_counterexample :
    processEventData ["A"] (fun _ => some recC3) (JVal.str "event") evC3 = some ("A", duC3)
    ∧ controllingKey (processDeviceUpdate recC3 duC3).controllingSrc
        (processDeviceUpdate recC3 duC3).controllingSensor = "RELAY_2"
    ∧ (getKey? (processDeviceUpdate recC3 duC3).sensorReadings "RELAY_2").map (fun e => e.reading)
        = some (some (JVal.num 23))
    ∧ (processDeviceUpdate recC3 duC3).currentTemperature = JVal.num 21
    ∧ JVal.num 21 ≠ JVal.num 23 := by
  refine ⟨by decide, by decide, by decide, by decide, by decide⟩

/-- A readings-array element carrying a temperature for RELAY sensor 2. -/
def readingC3 (q : Rat) : Reading :=
  { reading := some (JVal.num q), src := some "RELAY", id := some (JVal.num 2),
    type := some "TEMPERATURE" }

/-- C3 (amended): when a readings update itself carries the controlling
sensor's temperature reading, the merge recomputes current_temperature to
that value (pointer resolved from the stored record), and the merged
sensor-readings table holds the same value. -/
theorem c3_reading_update_recomputes (q : Rat) (rec0 : DeviceRecord) :
    (processStateUpdate { rec0 with controllingSrc := JVal.str "RELAY", controllingSensor := JVal.num 2 }
        (processReadings [readingC3 q] "A" { online := some (JVal.bool false) }
          (some { rec0 with controllingSrc := JVal.str "RELAY", controllingSensor := JVal.num 2 }))).currentTemperature
      = JVal.num q
    ∧ (getKey? (processStateUpdate { rec0 with controllingSrc := JVal.str "RELAY", controllingSensor := JVal.num 2 }
        (processReadings [readingC3 q] "A" { online := some (JVal.bool false) }
          (some { rec0 with controllingSrc := JVal.str "RELAY", controllingSensor := JVal.num 2 }))).sensorReadings
        "RELAY_2").map (fun e => e.reading) = some (some (JVal.num q)) :=
  ⟨by rw [processStateUpdate_currentTemperature]; rfl,
   by rw [processStateUpdate_sensorReadings]; rfl⟩

/-- C4: an event whose extracted serial is not a configured device serial
produces no update and triggers no callback. -/
theorem c4_unknown_serial_dropped (deviceSerials : List String)
    (stored : String → Option DeviceRecord) (tag : JVal) (ev : EventData)
    (h : ∀ s ∈ deviceSerials, JVal.str s ≠ eventSerial ev) :
    processEventData deviceSerials stored tag ev = none := by
  have hgate : ∀ v : JVal, (∀ s ∈ deviceSerials, JVal.str s ≠ v) →
      serialGate deviceSerials v = none := by
    intro v hv
    cases v with
    | str s =>
      unfold serialGate
      dsimp only
      by_cases hs : s = ""
      · rw [if_pos hs]
      · rw [if_neg hs]
        have hnc : ¬ (deviceSerials.contains s = true) := by
          intro hcon
          exact hv s (by simpa [List.contains] using hcon) rfl
        rw [if_pos hnc]
    | null => rfl
    | bool b => rfl
    | num q => rfl
  unfold processEventData
  by_cases htag : tag ≠ JVal.str "event"
  · rw [if_pos htag]
  · rw [if_neg htag]
    cases hb : ev.baseInfo with
    | some bi =>
      dsimp only
      unfold baseInfoEventUpdate
      rw [hgate _ (by simpa [eventSerial, hb] using h)]
    | none =>
      dsimp only
      unfold steadyEventUpdate
      rw [hgate _ (by simpa [eventSerial, hb] using h)]

/-- C4 witness: with configured serials A and B, a base_info event for C is
dropped. -/
theorem c4_unknown_serial_dropped_witness :
    processEventData ["A", "B"] (fun _ => none) (JVal.str "event")
      { baseInfo := some [("serial_number", JVal.str "C")] } = none :=
  c4_unknown_serial_dropped ["A", "B"] (fun _ => none) (JVal.str "event")
    { baseInfo := some [("serial_number", JVal.str "C")] } (by decide)

/-- C5: an "N/A" wire value always yields a stored null, never zero: for a
temperature reading the sensor entry's reading becomes null, humidity and
target-temperature readings become null, and schedule/manual setpoints of
value "N/A" become null, whatever else the update already contains. -/
theorem c5_na_normalised_to_null (rs : List Reading) (r0 : Reading) (s : String)
    (du : DeviceUpdate) (stored : Option DeviceRecord) (rls : List Relay) (rl0 : Relay) :
    (getKey? ((processReadings (rs ++ [{ r0 with reading := some (JVal.str "N/A"), type := some "TEMPERATURE" }]) s du stored).sensorReadings.getD [])
        (readingSensorKey { r0 with reading := some (JVal.str "N/A"), type := some "TEMPERATURE" })).map (fun e => e.reading)
      = some (some JVal.null)
    ∧ (processReadings (rs ++ [{ r0 with reading := some (JVal.str "N/A"), type := some "HUMIDITY" }]) s du stored).humidity
      = some JVal.null
    ∧ (processReadings (rs ++ [{ r0 with reading := some (JVal.str "N/A"), type := some "TARGET_TEMPERATURE" }]) s du stored).targetTemperature
      = some JVal.null
    ∧ (processRelays (rls ++ [{ rl0 with mode := some (JVal.str "SCHEDULE"), scheduleSetPoint := some (JVal.str "N/A") }]) s du).targetTemperature
      = some JVal.null
    ∧ (processRelays (rls ++ [{ rl0 with mode := some (JVal.str "MANUAL"), manualSetPoint := some (JVal.str "N/A") }]) s du).targetTemperature
      = some JVal.null := by
  refine ⟨?_, ?_, ?_, ?_, ?_⟩
  · rw [(processReadings_proj _ _ _ _).1, List.foldl_append]
    simp only [List.foldl_cons, List.foldl_nil]
    obtain ⟨e, hsr, hread⟩ :=
      processReadingStep_temp_na (List.foldl processReadingStep (readingsInit du) rs) r0
    rw [hsr]
    simp [getKey?_setKey_self, hread]
  · rw [(processReadings_proj _ _ _ _).2.1, List.foldl_append]
    simp only [List.foldl_cons, List.foldl_nil]
    exact processReadingStep_humidity_na _ r0
  · rw [(processReadings_proj _ _ _ _).2.2.1, List.foldl_append]
    simp only [List.foldl_cons, List.foldl_nil]
    exact processReadingStep_target_na _ r0
  · rw [(processRelays_proj _ _ _).1, List.foldl_append]
    simp only [List.foldl_cons, List.foldl_nil]
    exact processRelayStep_sched_na _ rl0
  · rw [(processRelays_proj _ _ _).1, List.foldl_append]
    simp only [List.foldl_cons, List.foldl_nil]
    exact processRelayStep_manual_na _ rl0

/-- C6: the refresh predicate is true exactly when the token expiry was
decoded and now plus the one-hour lead window has reached it; in particular
an undecodable payload (expiry none) never triggers a refresh. -/
theorem c6_refresh_iff (token : String) (now : Rat) :
    tokenNeedsRefresh (getTokenExpiry token) now = true ↔
      ∃ e, getTokenExpiry token = some e ∧ e ≤ now + 3600 := by
  cases h : getTokenExpiry token with
  | none => simp [tokenNeedsRefresh]
  | some e =>
    simp only [tokenNeedsRefresh, Option.some.injEq]
    constructor
    · intro ht
      refine ⟨e, rfl, ?_⟩
      by_contra hc
      simp [if_neg hc] at ht
    · rintro ⟨e', he', hle⟩
      cases he'
      simp [if_pos hle]

/-- C9: a steady-state event that omits the online key produces an update
whose online value is False, and merging it marks any record offline, even
one previously online. -/
theorem c9_online_default_false (deviceSerials : List String)
    (stored : String → Option DeviceRecord) (ev : EventData) (s : String) (rec : DeviceRecord)
    (hb : ev.baseInfo = none) (hs : ev.serialNumber = some (JVal.str s))
    (hne : s ≠ "") (hmem : s ∈ deviceSerials) (hon : ev.online = none) :
    (processEventData deviceSerials stored (JVal.str "event") ev).map (fun p => p.2.online)
      = some (some (JVal.bool false))
    ∧ ∀ du, processEventData deviceSerials stored (JVal.str "event") ev = some (s, du) →
        (processDeviceUpdate rec du).online = JVal.bool false := by
  have hcontains : deviceSerials.contains s = true := by
    simpa [List.contains] using hmem
  obtain ⟨du0, hdu0, hon0⟩ :
      ∃ du0, processEventData deviceSerials stored (JVal.str "event") ev = some (s, du0)
        ∧ du0.online = some (JVal.bool false) := by
    have hgate : serialGate deviceSerials (JVal.str s) = some s := by
      unfold serialGate
      dsimp only
      rw [if_neg hne, if_neg (by simp [hmem])]
    unfold processEventData
    rw [if_neg (by simp), hb]
    dsimp only
    unfold steadyEventUpdate
    rw [hs]
    dsimp only [Option.getD]
    rw [hgate]
    refine ⟨_, rfl, ?_⟩
    cases hr : ev.readings <;> cases hl : ev.relays <;>
      simp [hon, processReadings_online, processRelays_online]
  refine ⟨by rw [hdu0]; simp [hon0], ?_⟩
  intro du hdu
  rw [hdu0] at hdu
  have hdu2 : du0 = du := congrArg Prod.snd (Option.some.inj hdu)
  rw [← hdu2, processDeviceUpdate_online, hon0]
  rfl

/-- C7 counterexample: an iteration whose connect succeeded (and failed
later, e.g. during handshake) already reset the counters, so the next delay
is 5 seconds with unit jitter, not the 10-second base the claim requires
after a successful post-handshake exchange. -/
theorem c7_counterexample :
    backoffRun initialBackoff [(true, 1)] = [5] ∧ (5 : Rat) ≠ 10 := by
  constructor
  · simp only [backoffRun, handlerIteration, initialBackoff]
    norm_num
  · norm_num

/-- C7 (amended): from the constructor state (interval 10 s) five failed
connects yield delays 10, 20, 40, 80, 160 seconds times their jitter draws;
every computed delay is capped at 600 s; and a successful connect resets the
counters to zero attempts and a 5-second interval before any handshake. -/
theorem c7_backoff_progression (j1 j2 j3 j4 j5 : Rat)
    (h1 : 4/5 ≤ j1 ∧ j1 ≤ 6/5) (h2 : 4/5 ≤ j2 ∧ j2 ≤ 6/5) (h3 : 4/5 ≤ j3 ∧ j3 ≤ 6/5)
    (h4 : 4/5 ≤ j4 ∧ j4 ≤ 6/5) (h5 : 4/5 ≤ j5 ∧ j5 ≤ 6/5) :
    backoffRun initialBackoff
        [(false, j1), (false, j2), (false, j3), (false, j4), (false, j5)] =
      [10 * j1, 20 * j2, 40 * j3, 80 * j4, 160 * j5]
    ∧ (∀ (st : BackoffState) (c : Bool) (j : Rat), (handlerIteration st c j).2 ≤ 600)
    ∧ (∀ (st : BackoffState) (j : Rat), handlerIteration st true j =
        ({ reconnectAttempts := 1, reconnectInterval := 5 }, min (5 * j) 600)) := by
  refine ⟨?_, ?_, ?_⟩
  · simp only [backoffRun, handlerIteration, initialBackoff]
    norm_num
    refine ⟨?_, ?_, ?_, ?_, ?_⟩
    · nlinarith [h1.2]
    · nlinarith [h2.2]
    · nlinarith [h3.2]
    · nlinarith [h4.2]
    · nlinarith [h5.2]
  · intro st c j
    exact min_le_right _ _
  · intro st j
    simp only [handlerIteration]
    norm_num

/-- C7 witness: unit jitter instantiation. -/
theorem c7_backoff_progression_witness :
    backoffRun initialBackoff
        [(false, 1), (false, 1), (false, 1), (false, 1), (false, 1)] =
      [10, 20, 40, 80, 160] := by
  have h := (c7_backoff_progression 1 1 1 1 1 (by norm_num) (by norm_num) (by norm_num)
    (by norm_num) (by norm_num)).1
  simpa using h

/-- C9 witness: configured serial A, steady-state event with no online key. -/
theorem c9_online_default_false_witness :
    (processEventData ["A"] (fun _ => none) (JVal.str "event")
        { serialNumber := some (JVal.str "A") }).map (fun p => p.2.online)
      = some (some (JVal.bool false)) :=
  (c9_online_default_false ["A"] (fun _ => none) { serialNumber := some (JVal.str "A") } "A"
    { info := sampleInfo, online := JVal.bool true } rfl rfl (by decide) (by decide) rfl).1

/-! C8 concrete data: a record that already saw steady-state updates, the
device metadata, and a real base_info event crafted to carry exactly the
synthetic contents. -/

def recC8 : DeviceRecord :=
  { info := sampleInfo, function := JVal.str "heating", mode := JVal.str "manual",
    relayState := JVal.bool false }

def relayC8 : Relay :=
  { relay := some (JVal.num 1), type := some (JVal.str "THERMOSTAT"),
    relayState := some (JVal.bool false), function := some (JVal.str "heating"),
    mode := some (JVal.str "manual") }

def baseInfoC8 : List (String × JVal) := [
  ("id", JVal.num 7), ("serial_number", JVal.str "A"), ("brand", JVal.null),
  ("type", JVal.str "BSERIES"), ("user_id", JVal.null), ("fw_ver", JVal.str "1.0"),
  ("device_type", JVal.str "b-series"), ("name", JVal.str "b-series A"),
  ("timezone", JVal.str "Europe/Budapest"), ("group_color", JVal.null),
  ("assigned_partner", JVal.null)]

def evC8 : EventData := { baseInfo := some baseInfoC8, relays := some [relayC8] }

def duC8 : DeviceUpdate :=
  { online := some (JVal.bool false), baseInfo := some baseInfoC8,
    availableSensorIds := some [], availableRelayIds := some ["1"],
    sensors := some [], relays := some [("1", relayC8)],
    relayState := some (JVal.bool false), isHeating := some (JVal.bool false),
    function := some (JVal.str "heating"), mode := some (JVal.str "manual") }

/-- C8 counterexample: the synthesized record is not distinguishable from a
real discovery: a real base_info event (evC8) merges to exactly the same
record as the synthesized base_info, so nothing marks discovery-via-
synthesis. -/
theorem c8_counterexample :
    processEventData ["A"] (fun _ => some recC8) (JVal.str "event") evC8 = some ("A", duC8)
    ∧ processDeviceUpdate recC8 duC8 = synthesizeMerge sampleInfo recC8 := by
  constructor
  · decide
  · decide

/-- C8 (amended): after the scan-retry budget of 3 is exhausted the monitor
requests synthesis, and the synthesized update carries the serial number,
device type and firmware version inside its base_info, carries the already
observed sensor readings, and merges them into the record — but nothing in
it marks the record as synthesized. -/
theorem c8_synthesized_record (info : DeviceInfo) (current : DeviceRecord) :
    jvGetD ((synthesizeBaseInfo info current).baseInfo.getD []) "serial_number" JVal.null
      = JVal.str info.serialNumber
    ∧ jvGetD ((synthesizeBaseInfo info current).baseInfo.getD []) "type" JVal.null = info.devType
    ∧ jvGetD ((synthesizeBaseInfo info current).baseInfo.getD []) "fw_ver" JVal.null = info.fwVer
    ∧ (synthesizeBaseInfo info current).sensorReadings = some current.sensorReadings
    ∧ (synthesizeMerge info current).baseInfo = (synthesizeBaseInfo info current).baseInfo
    ∧ (synthesizeMerge info current).sensorReadings = current.sensorReadings
    ∧ (∀ n, monitorBaseInfoOutcome n = MonitorOutcome.synthesizeRequest ↔ 3 ≤ n) := by
  refine ⟨rfl, rfl, rfl, rfl, rfl, rfl, ?_⟩
  intro n
  unfold monitorBaseInfoOutcome
  split <;> simp <;> omega

/-- C10 counterexample: a token whose payload segment contains the url-safe
character '-' for which the pipeline nevertheless decodes an expiry of 1
epoch second, because lenient base64 decoding silently discards the
character; needsRefresh then reports true at time 0. -/
theorem c10_counterexample :
    getTokenExpiry "x.eyJleHAiOjF9-.y" = some 1
    ∧ tokenNeedsRefresh (getTokenExpiry "x.eyJleHAiOjF9-.y") 0 = true := by
  constructor
  · rfl
  · rw [show getTokenExpiry "x.eyJleHAiOjF9-.y" = some 1 from rfl]
    norm_num [tokenNeedsRefresh]

/-- C10 (amended): the decoder treats the payload as standard base64 in
lenient mode, so '-' and '_' are not decoded but silently discarded
(decoding is invariant under deleting them); a genuine base64url JWT whose
payload carries '-' (here the urlsafe encoding of a JSON object with
exp = 1) fails the pipeline, records no expiry, and reports no refresh. -/
theorem c10_urlsafe_not_decoded :
    (∀ (cs : List Char) (quadPos leftchar pads : Nat) (acc : List Nat),
        a2bLoop (cs.filter (fun c => !(c = '-' || c = '_'))) quadPos leftchar pads acc =
          a2bLoop cs quadPos leftchar pads acc)
    ∧ getTokenExpiry "h.eyJleHAiOjEsInUiOiI-MCJ9.s" = none
    ∧ tokenNeedsRefresh (getTokenExpiry "h.eyJleHAiOjEsInUiOiI-MCJ9.s") 0 = false := by
  refine ⟨?_, rfl, rfl⟩
  intro cs
  induction cs with
  | nil => intro q l p a; rfl
  | cons c rest ih =>
    intro q l p a
    by_cases hc : c = '-' ∨ c = '_'
    · have hne : c ≠ '=' := by rcases hc with h | h <;> subst h <;> decide
      have hcode : b64CharVal c = none := by
        rcases hc with h | h <;> subst h <;> rfl
      have hfilter : (c :: rest).filter (fun c => !(c = '-' || c = '_')) =
          rest.filter (fun c => !(c = '-' || c = '_')) := by
        rcases hc with h | h <;> subst h <;> simp
      rw [hfilter]
      conv_rhs => rw [a2bLoop]
      rw [if_neg hne, hcode]
      exact ih q l p a
    · push_neg at hc
      have hfilter : (c :: rest).filter (fun c => !(c = '-' || c = '_')) =
          c :: rest.filter (fun c => !(c = '-' || c = '_')) := by
        simp [hc.1, hc.2]
      rw [hfilter]
      rw [a2bLoop, a2bLoop]
      by_cases he : c = '='
      · rw [if_pos he, if_pos he]
        split
        · split
          · rfl
          · exact ih q l (p + 1) a
        · exact ih q l p a
      · rw [if_neg he, if_neg he]
        cases hv : b64CharVal c with
        | none => exact ih q l p a
        | some v =>
          cases q with
          | zero => exact ih 1 v 0 a
          | succ q' =>
            cases q' with
            | zero => exact ih 2 (v % 16) 0 _
            | succ q'' =>
              cases q'' with
              | zero => exact ih 3 (v % 4) 0 _
              | succ q''' => exact ih 0 0 0 _
